import Mathlib

/-!
# Verification of `hitlist.go`

A shallow embedding of the `hitlist` command-line utility (package `main`,
single file `hitlist.go`): it reads a cell grid from a Google Sheets
spreadsheet, formats the grid into a status message, and posts it via the
anaconda Twitter API.

External effects (file system reads, the OAuth token endpoint, the Sheets
read endpoint, the PostTweet endpoint, stdin) are modelled by an `Env`
record holding the outcome each external call would produce in this run.
The embedded `doMain`/`getClient` thread through the observable state of
the run: the sequence of external calls made (`Event`s), the log lines
emitted, the anaconda package-level credential state, the token-cache
file contents, and the final outcome.
-/

set_option maxRecDepth 8000

namespace Hitlist

/-- `const maxTweetSize = 280` from the source. -/
def maxTweetSize : Nat := 280

/-- `resp.Values`: rows of string cell values ([][]interface{} whose
elements are strings). -/
abbrev CellGrid := List (List String)

/-- `sheetsConfig` from the source: secretPath, id, name, cellRange. -/
structure sheetsConfig where
  secretPath : String
  id : String
  name : String
  cellRange : String
deriving Repr, DecidableEq

/-- `twitterConfig` from the source: consumer key/secret, access token/secret. -/
structure twitterConfig where
  consumerKey : String
  consumerSecret : String
  accessToken : String
  accessSecret : String
deriving Repr, DecidableEq

/-- `oauth2.Token`: access token, refresh token, expiry (unix seconds,
`0` standing for Go's zero time). -/
structure OToken where
  accessToken : String
  refreshToken : String
  expiry : Int
deriving Repr, DecidableEq

/-- `oauth2.Token.expired`: false when expiry is the zero time, otherwise
true when expiry minus the 10-second delta is before now. -/
def OToken.expired (t : OToken) (now : Int) : Bool :=
  if t.expiry == 0 then false else decide (t.expiry - 10 < now)

/-- `oauth2.Token.Valid`: nonempty access token and not expired.
The source never calls this; it is embedded to state validity claims. -/
def OToken.valid (t : OToken) (now : Int) : Bool :=
  t.accessToken != "" && !(t.expired now)

/-- The anaconda package-level credential state touched by
`anaconda.SetConsumerKey` / `anaconda.SetConsumerSecret`. -/
structure AnacondaState where
  consumerKey : String
  consumerSecret : String
deriving Repr, DecidableEq

/-- Credential state before any Set call (both unset). -/
def anacondaInit : AnacondaState := ⟨"", ""⟩

/-- `anaconda.SetConsumerKey`: installs its argument in the consumer-key field. -/
def setConsumerKey (s : AnacondaState) (k : String) : AnacondaState :=
  { s with consumerKey := k }

/-- `anaconda.SetConsumerSecret`: installs its argument in the
consumer-secret field. (Available in the anaconda API; the source never
calls it.) -/
def setConsumerSecret (s : AnacondaState) (v : String) : AnacondaState :=
  { s with consumerSecret := v }

/-- `anaconda.TwitterApi`: the access token/secret pair bound by
`anaconda.NewTwitterApi`. -/
structure TwitterApi where
  accessToken : String
  accessSecret : String
deriving Repr, DecidableEq

/-- `anaconda.NewTwitterApi(accessToken, accessSecret)`. -/
def newTwitterApi (accessToken accessSecret : String) : TwitterApi :=
  ⟨accessToken, accessSecret⟩

/-- The external calls a run can make, in source order. -/
inductive Event where
  | readSecretFile
  | parseConfig
  | tokenLoad
  | webExchange
  | saveCall
  | sheetRead
  | postTweet
  | markCompleteCall
deriving Repr, DecidableEq

/-- The error kinds `doMain`/`getClient` can return, one per `return err`
site in the source. -/
inductive RunError where
  | configRead
  | configParse
  | cachePathErr
  | authErr
  | sheetsNewErr
  | readErr
  | emptyResult
  | postErr
  | markErr
deriving Repr, DecidableEq

/-- Outcomes of the external calls for one run: what each collaborator
(file system, OAuth endpoints, Sheets API, Twitter API) would answer if
called. `none` means the call fails. -/
structure Env where
  /-- `ioutil.ReadFile(sc.secretPath)` result. -/
  secretContent : Option String
  /-- whether `google.ConfigFromJSON` succeeds on the secret content. -/
  configOk : Bool
  /-- the authorization URL `config.AuthCodeURL` would produce. -/
  authURL : String
  /-- `createCacheFile()` result: the token-cache path. -/
  cachePath : Option String
  /-- current contents of the token-cache file (none: file absent). -/
  cacheContents : Option String
  /-- `tokenFromFile` result: `none` when the open or the JSON decode fails. -/
  loadedToken : Option OToken
  /-- `getTokenFromWeb` result: `none` when reading the code or the
  exchange fails. -/
  webToken : Option OToken
  /-- whether `saveToken`'s `os.OpenFile` + encode succeeds. -/
  saveOk : Bool
  /-- whether `sheets.New(client)` succeeds. -/
  sheetsNewOk : Bool
  /-- `srv.Spreadsheets.Values.Get(...).Do()` result. -/
  sheetResp : Option CellGrid
  /-- whether `api.PostTweet` succeeds. -/
  postOk : Bool
deriving Repr

/-- The log line of `getTokenFromWeb`. -/
def authPromptLog (authURL : String) : String :=
  "Go to the following link in your browser then type the authorization code: \n"
    ++ authURL ++ "\n"

/-- The log line of `saveToken`. -/
def saveLog (file : String) : String :=
  "Saving credential file to: " ++ file ++ "\n"

/-- The serialized form `json.NewEncoder(f).Encode(token)` writes
(modelled as an explicit serialization of the three fields). -/
def encodeToken (t : OToken) : String :=
  "access_token=" ++ t.accessToken ++ ";refresh_token=" ++ t.refreshToken
    ++ ";expiry=" ++ toString t.expiry

/-- `saveToken(file, token)`: logs the destination, then truncates and
rewrites the cache file; returns the log lines, the file contents after
the call, and the error result. The write fails iff `saveOk` is false,
in which case the contents are unchanged. -/
def saveToken (file : String) (saveOk : Bool) (t : OToken)
    (oldContents : Option String) :
    List String × Option String × Except String Unit :=
  ( [saveLog file],
    if saveOk then some (encodeToken t) else oldContents,
    if saveOk then .ok () else .error "Unable to cache oauth token" )

/-- Observable result of `getClient`. -/
structure GCResult where
  logs : List String
  events : List Event
  cacheContents : Option String
  outcome : Except RunError OToken
deriving Repr

/-- `getClient(ctx, config)`: compute the cache path; try `tokenFromFile`;
on any load failure fall back to `getTokenFromWeb` and, on success, call
`saveToken` discarding its error; return the token the HTTP client is
bound to. -/
def getClient (env : Env) : GCResult :=
  match env.cachePath with
  | none => ⟨[], [], env.cacheContents, .error .cachePathErr⟩
  | some file =>
    match env.loadedToken with
    | some tok => ⟨[], [.tokenLoad], env.cacheContents, .ok tok⟩
    | none =>
      match env.webToken with
      | none =>
          ⟨[authPromptLog env.authURL], [.tokenLoad, .webExchange],
            env.cacheContents, .error .authErr⟩
      | some tok =>
          let s := saveToken file env.saveOk tok env.cacheContents
          ⟨authPromptLog env.authURL :: s.1,
            [.tokenLoad, .webExchange, .saveCall], s.2.1, .ok tok⟩

/-- Go `fmt` rendering (`%v`) of one row of string cells: `[a b c]`. -/
def sprintRow (r : List String) : String :=
  "[" ++ String.intercalate " " r ++ "]"

/-- Go `fmt` rendering (`%v`) of `resp.Values`: `[[a b] [c d]]`. -/
def sprintGrid (g : CellGrid) : String :=
  "[" ++ String.intercalate " " (g.map sprintRow) ++ "]"

/-- The rendered status before truncation:
`fmt.Sprintf("some cool data: %v", data)`. -/
def statusFull (g : CellGrid) : String :=
  "some cool data: " ++ sprintGrid g

/-- Go slicing `s[:n]`: the first `n` units of `s`. -/
def goSlice (s : String) (n : Nat) : String :=
  ⟨s.data.take n⟩

/-- The log line of `tweet`. -/
def tweetLog (g : CellGrid) : String :=
  "would have tweeted data: " ++ sprintGrid g

/-- The status string `tweet` passes to `api.PostTweet`: the rendered
status, truncated to `maxTweetSize` when longer. -/
def tweetStatus (g : CellGrid) : String :=
  if (statusFull g).length > maxTweetSize then goSlice (statusFull g) maxTweetSize
  else statusFull g

/-- `tweet(api, data)`: logs the data, builds and truncates the status,
posts it. Returns the log lines, the status passed to `PostTweet`, and
the error result. -/
def tweet (api : TwitterApi) (g : CellGrid) (postOk : Bool) :
    List String × String × Except RunError Unit :=
  ([tweetLog g], tweetStatus g, if postOk then .ok () else .error .postErr)

/-- `markComplete()`: always succeeds. -/
def markComplete : Except RunError Unit := .ok ()

/-- Everything observable about one run of `doMain`. -/
structure RunResult where
  events : List Event
  logs : List String
  anaconda : AnacondaState
  api : Option TwitterApi
  /-- the status string passed to `api.PostTweet`, when that call is made. -/
  posted : Option String
  cacheContents : Option String
  outcome : Except RunError Unit
deriving Repr

/-- `doMain(sc, tc)`: read the secret file, build the OAuth config, get
the authorized client, build the Sheets service, read the range, fail on
an empty grid, configure anaconda (calling `SetConsumerKey` twice, as the
source does), build the api, tweet, mark complete. -/
def doMain (sc : sheetsConfig) (tc : twitterConfig) (env : Env) : RunResult :=
  match env.secretContent with
  | none =>
      { events := [.readSecretFile], logs := [], anaconda := anacondaInit,
        api := none, posted := none, cacheContents := env.cacheContents,
        outcome := .error .configRead }
  | some _ =>
    if env.configOk = false then
      { events := [.readSecretFile, .parseConfig], logs := [],
        anaconda := anacondaInit, api := none, posted := none,
        cacheContents := env.cacheContents, outcome := .error .configParse }
    else
      let gc := getClient env
      let ev0 := [Event.readSecretFile, Event.parseConfig] ++ gc.events
      match gc.outcome with
      | .error e =>
          { events := ev0, logs := gc.logs, anaconda := anacondaInit,
            api := none, posted := none, cacheContents := gc.cacheContents,
            outcome := .error e }
      | .ok _tok =>
        if env.sheetsNewOk = false then
          { events := ev0, logs := gc.logs, anaconda := anacondaInit,
            api := none, posted := none, cacheContents := gc.cacheContents,
            outcome := .error .sheetsNewErr }
        else
          match env.sheetResp with
          | none =>
              { events := ev0 ++ [.sheetRead], logs := gc.logs,
                anaconda := anacondaInit, api := none, posted := none,
                cacheContents := gc.cacheContents, outcome := .error .readErr }
          | some grid =>
            if grid.length < 1 then
              { events := ev0 ++ [.sheetRead], logs := gc.logs,
                anaconda := anacondaInit, api := none, posted := none,
                cacheContents := gc.cacheContents,
                outcome := .error .emptyResult }
            else
              let anac :=
                setConsumerKey (setConsumerKey anacondaInit tc.consumerKey)
                  tc.consumerSecret
              let api := newTwitterApi tc.accessToken tc.accessSecret
              let tw := tweet api grid env.postOk
              match tw.2.2 with
              | .error _ =>
                  { events := ev0 ++ [.sheetRead, .postTweet],
                    logs := gc.logs ++ tw.1, anaconda := anac,
                    api := some api, posted := some tw.2.1,
                    cacheContents := gc.cacheContents,
                    outcome := .error .postErr }
              | .ok _ =>
                match markComplete with
                | .error _ =>
                    { events := ev0 ++ [.sheetRead, .postTweet, .markCompleteCall],
                      logs := gc.logs ++ tw.1, anaconda := anac,
                      api := some api, posted := some tw.2.1,
                      cacheContents := gc.cacheContents,
                      outcome := .error .markErr }
                | .ok _ =>
                    { events := ev0 ++ [.sheetRead, .postTweet, .markCompleteCall],
                      logs := gc.logs ++ tw.1, anaconda := anac,
                      api := some api, posted := some tw.2.1,
                      cacheContents := gc.cacheContents,
                      outcome := .ok () }

/-! ## Helper lemmas -/

lemma goSlice_data (s : String) (n : Nat) : (goSlice s n).data = s.data.take n := rfl

lemma goSlice_length (s : String) (n : Nat) :
    (goSlice s n).length = min n s.length := by
  unfold goSlice
  rw [String.length_mk, List.length_take]
  rfl

lemma statusFull_data (g : CellGrid) :
    (statusFull g).data = ("some cool data: ").data ++ (sprintGrid g).data :=
  String.data_append "some cool data: " (sprintGrid g)

/-! ## Claims about the status formatter (`tweet`, source lines 188-195) -/

/-- C5: for every CellGrid, the status message passed to PostTweet has
length at most 280 units; it is a literal cut of the rendered string
(a list-prefix, so no ellipsis is appended), and when the rendered
string exceeds 280 units the cut is exactly at 280. -/
theorem c5_status_bounded_by_literal_cut (g : CellGrid) :
    (tweetStatus g).length ≤ maxTweetSize ∧
      (tweetStatus g).data <+: (statusFull g).data ∧
      ((statusFull g).length > maxTweetSize →
        (tweetStatus g).length = maxTweetSize) := by
  unfold tweetStatus
  by_cases h : (statusFull g).length > maxTweetSize
  · rw [if_pos h]
    refine ⟨?_, ?_, fun _ => ?_⟩
    · rw [goSlice_length]; exact Nat.min_le_left _ _
    · rw [goSlice_data]; exact List.take_prefix _ _
    · rw [goSlice_length]; exact Nat.min_eq_left (Nat.le_of_lt h)
  · rw [if_neg h]
    exact ⟨Nat.le_of_not_lt h, List.prefix_refl _, fun hc => absurd hc h⟩

/-- A grid whose rendering exceeds 280 units, used to exercise the
truncation branch. -/
def bigGrid : CellGrid := [List.replicate 280 "x"]

/-- C5 witness: on `bigGrid` the rendered status exceeds 280 units and
the posted status is cut to exactly 280. -/
theorem c5_status_bounded_by_literal_cut_witness :
    (statusFull bigGrid).length > maxTweetSize ∧
      (tweetStatus bigGrid).length = maxTweetSize :=
  ⟨by decide, (c5_status_bounded_by_literal_cut bigGrid).2.2 (by decide)⟩

/-- C9: the status formatter is deterministic; two applications of the
formatting pipeline to the same grid yield the identical string (the
embedded `tweetStatus` is a pure function of the grid). -/
theorem c9_format_deterministic (g₁ g₂ : CellGrid) (h : g₁ = g₂) :
    tweetStatus g₁ = tweetStatus g₂ := by rw [h]

/-- C9 witness: determinism at the concrete grid `[[a b] [c d]]`. -/
theorem c9_format_deterministic_witness :
    tweetStatus [["a", "b"], ["c", "d"]] = tweetStatus [["a", "b"], ["c", "d"]] :=
  c9_format_deterministic _ _ rfl

/-- C10: the posted status is an initial segment of
`"some cool data: " ++ <grid rendering>`; when that full string fits in
280 units it is posted unchanged, and every posted status starts with
the literal label `"some cool data: "`. -/
theorem c10_posted_is_labelled_render (g : CellGrid) :
    (tweetStatus g).data <+: (statusFull g).data ∧
      ((statusFull g).length ≤ maxTweetSize → tweetStatus g = statusFull g) ∧
      ("some cool data: ").data <+: (tweetStatus g).data := by
  refine ⟨?_, ?_, ?_⟩
  · unfold tweetStatus
    by_cases h : (statusFull g).length > maxTweetSize
    · rw [if_pos h, goSlice_data]; exact List.take_prefix _ _
    · rw [if_neg h]
  · intro h
    unfold tweetStatus
    rw [if_neg (Nat.not_lt.mpr h)]
  · unfold tweetStatus
    by_cases h : (statusFull g).length > maxTweetSize
    · rw [if_pos h, goSlice_data]
      rw [List.prefix_take_iff]
      constructor
      · rw [statusFull_data]; exact List.prefix_append _ _
      · decide
    · rw [if_neg h, statusFull_data]
      exact List.prefix_append _ _

/-- C10 witness: the scenario grid `[[a b] [c d]]` renders under 280
units and is posted completely unchanged, label included. -/
theorem c10_posted_is_labelled_render_witness :
    (statusFull [["a", "b"], ["c", "d"]]).length ≤ maxTweetSize ∧
      tweetStatus [["a", "b"], ["c", "d"]] = statusFull [["a", "b"], ["c", "d"]] :=
  ⟨by decide,
    (c10_posted_is_labelled_render [["a", "b"], ["c", "d"]]).2.1 (by decide)⟩

/-! ## Helper lemmas about `getClient` -/

lemma getClient_load_success (env : Env) (f : String) (tok : OToken)
    (hp : env.cachePath = some f) (hl : env.loadedToken = some tok) :
    getClient env = ⟨[], [Event.tokenLoad], env.cacheContents, .ok tok⟩ := by
  simp [getClient, hp, hl]

lemma getClient_events_cases (env : Env) :
    (getClient env).events = [] ∨ (getClient env).events = [Event.tokenLoad] ∨
      (getClient env).events = [Event.tokenLoad, Event.webExchange] ∨
      (getClient env).events = [Event.tokenLoad, Event.webExchange, Event.saveCall] := by
  cases hc : env.cachePath <;> cases hl : env.loadedToken <;>
    cases hw : env.webToken <;> simp [getClient, hc, hl, hw]

lemma postTweet_not_in_getClient (env : Env) :
    Event.postTweet ∉ (getClient env).events := by
  rcases getClient_events_cases env with h | h | h | h <;> rw [h] <;> decide

lemma markCompleteCall_not_in_getClient (env : Env) :
    Event.markCompleteCall ∉ (getClient env).events := by
  rcases getClient_events_cases env with h | h | h | h <;> rw [h] <;> decide

/-! ## Concrete run configurations used by witnesses and counterexamples -/

/-- A concrete sheets configuration for witnesses. -/
def scW : sheetsConfig := ⟨"./client_secret.json", "sheet-id", "Sheet1", "A2:E"⟩

/-- A concrete twitter configuration for witnesses. -/
def tcW : twitterConfig := ⟨"ckey", "csecret", "atoken", "asecret"⟩

/-- A concrete environment in which every external call succeeds and the
token cache holds a decodable token. -/
def envOk : Env :=
  { secretContent := some "secret-json", configOk := true, authURL := "auth-url",
    cachePath := some "home/.credentials/sheets-to-tweets",
    cacheContents := some "cached-token-json",
    loadedToken := some ⟨"cached-at", "cached-rt", 0⟩, webToken := none,
    saveOk := true, sheetsNewOk := true,
    sheetResp := some [["a", "b"], ["c", "d"]], postOk := true }

/-! ## C1 — publisher credential installation (source lines 104-106) -/

/-- C1: evaluation of the publish set-up at a concrete credential set.
The source calls `anaconda.SetConsumerKey` twice (lines 104-105), the
second time with the consumer secret, so the consumer-key field ends up
holding the consumer secret and the consumer-secret field is never
installed; only the access token/secret pair lands in its own fields. -/
theorem c1_consumer_secret_overwrites_key :
    (doMain scW ⟨"consumer-key", "consumer-secret", "access-token", "access-secret"⟩
        envOk).anaconda
        = { consumerKey := "consumer-secret", consumerSecret := "" } ∧
      (doMain scW ⟨"consumer-key", "consumer-secret", "access-token", "access-secret"⟩
        envOk).api
        = some { accessToken := "access-token", accessSecret := "access-secret" } := by
  constructor <;> rfl

/-! ## C2 — cached-token use in `getClient` (source lines 119-136, 150-159) -/

/-- An environment whose cache file decodes to a token that is expired
(hence not valid), with every other call available. -/
def envExpiredTok : Env :=
  { envOk with loadedToken := some ⟨"stale-at", "stale-rt", 5⟩ }

/-- C2 counterexample: a run where the Token Store load succeeds but the
loaded token is not valid (expired at time 1000), yet `getClient` never
performs the web exchange and returns the stale cached token — the code
does no validity check after a successful load. -/
theorem c2_counterexample :
    OToken.valid ⟨"stale-at", "stale-rt", 5⟩ 1000 = false ∧
      envExpiredTok.loadedToken = some ⟨"stale-at", "stale-rt", 5⟩ ∧
      Event.webExchange ∉ (getClient envExpiredTok).events ∧
      (getClient envExpiredTok).logs = [] ∧
      (getClient envExpiredTok).outcome = .ok ⟨"stale-at", "stale-rt", 5⟩ :=
  ⟨rfl, rfl, by decide, rfl, rfl⟩

/-- C2 (amended): whenever the Token Store load succeeds, the Authorizer
uses the loaded token as is — no validity check, no interactive prompt,
no web exchange — so in particular a well-formed valid cached token
produces no interactive prompt. -/
theorem c2_cached_token_always_used (env : Env) (f : String) (tok : OToken)
    (hp : env.cachePath = some f) (hl : env.loadedToken = some tok) :
    (getClient env).outcome = .ok tok ∧ (getClient env).logs = [] ∧
      Event.webExchange ∉ (getClient env).events := by
  rw [getClient_load_success env f tok hp hl]
  exact ⟨rfl, rfl, by simp⟩

/-- C2 witness: the amended theorem at the concrete environment `envOk`. -/
theorem c2_cached_token_always_used_witness :
    envOk.cachePath = some "home/.credentials/sheets-to-tweets" ∧
      envOk.loadedToken = some ⟨"cached-at", "cached-rt", 0⟩ ∧
      ((getClient envOk).outcome = .ok ⟨"cached-at", "cached-rt", 0⟩ ∧
        (getClient envOk).logs = [] ∧
        Event.webExchange ∉ (getClient envOk).events) :=
  ⟨rfl, rfl,
    c2_cached_token_always_used envOk "home/.credentials/sheets-to-tweets"
      ⟨"cached-at", "cached-rt", 0⟩ rfl rfl⟩

/-! ## C3 — save failure after the web exchange (source lines 125-135, 178-186) -/

/-- An environment where the cache load fails, the web exchange
succeeds, and the cache write fails. -/
def envSaveFail : Env :=
  { envOk with
    cacheContents := none, loadedToken := none,
    webToken := some ⟨"fresh-at", "fresh-rt", 99⟩, saveOk := false }

/-- C3 counterexample: in a run where the save after a successful web
exchange fails, `getClient` still returns the authorized client, the
save was attempted, but the log output is identical to the run where the
save succeeds — the save failure is discarded, not logged. -/
theorem c3_counterexample :
    (getClient envSaveFail).outcome = .ok ⟨"fresh-at", "fresh-rt", 99⟩ ∧
      Event.saveCall ∈ (getClient envSaveFail).events ∧
      (getClient envSaveFail).logs
        = (getClient { envSaveFail with saveOk := true }).logs :=
  ⟨rfl, by decide, rfl⟩

/-- C3 (amended): after a successful interactive exchange the token is
persisted via `saveToken`, whose failure is silently discarded — the log
lines do not depend on the save outcome, and `getClient` returns the
authorized client whether or not the save fails. -/
theorem c3_save_failure_silently_ignored (env : Env) (f : String) (tok : OToken)
    (hp : env.cachePath = some f) (hl : env.loadedToken = none)
    (hw : env.webToken = some tok) :
    (getClient env).outcome = .ok tok ∧
      Event.saveCall ∈ (getClient env).events ∧
      (getClient env).logs = [authPromptLog env.authURL, saveLog f] := by
  simp [getClient, hp, hl, hw, saveToken, saveLog]

/-- C3 witness: the amended theorem at the concrete environment
`envSaveFail`, where the save does fail. -/
theorem c3_save_failure_silently_ignored_witness :
    envSaveFail.cachePath = some "home/.credentials/sheets-to-tweets" ∧
      envSaveFail.loadedToken = none ∧
      envSaveFail.webToken = some ⟨"fresh-at", "fresh-rt", 99⟩ ∧
      envSaveFail.saveOk = false ∧
      ((getClient envSaveFail).outcome = .ok ⟨"fresh-at", "fresh-rt", 99⟩ ∧
        Event.saveCall ∈ (getClient envSaveFail).events ∧
        (getClient envSaveFail).logs
          = [authPromptLog envSaveFail.authURL,
              saveLog "home/.credentials/sheets-to-tweets"]) :=
  ⟨rfl, rfl, rfl, rfl,
    c3_save_failure_silently_ignored envSaveFail
      "home/.credentials/sheets-to-tweets" ⟨"fresh-at", "fresh-rt", 99⟩
      rfl rfl rfl⟩

/-! ## C4 — empty grid aborts the run before publishing (source lines 100-102) -/

/-- C4: in every run where the spreadsheet read returns a grid with zero
rows, `doMain` fails with the empty-result error and the publish call is
never attempted. -/
theorem c4_empty_grid_fails_before_publish (sc : sheetsConfig)
    (tc : twitterConfig) (env : Env) (s : String) (tok : OToken)
    (h1 : env.secretContent = some s) (h2 : env.configOk = true)
    (h3 : (getClient env).outcome = .ok tok) (h4 : env.sheetsNewOk = true)
    (h5 : env.sheetResp = some []) :
    (doMain sc tc env).outcome = .error .emptyResult ∧
      Event.postTweet ∉ (doMain sc tc env).events ∧
      (doMain sc tc env).posted = none := by
  simp [doMain, h1, h2, h3, h4, h5, postTweet_not_in_getClient env]

/-- An otherwise-successful environment whose sheet read returns zero rows. -/
def envEmpty : Env := { envOk with sheetResp := some [] }

/-- C4 witness: the empty-grid theorem at the concrete environment `envEmpty`. -/
theorem c4_empty_grid_fails_before_publish_witness :
    envEmpty.sheetResp = some [] ∧
      ((doMain scW tcW envEmpty).outcome = .error .emptyResult ∧
        Event.postTweet ∉ (doMain scW tcW envEmpty).events ∧
        (doMain scW tcW envEmpty).posted = none) :=
  ⟨rfl,
    c4_empty_grid_fails_before_publish scW tcW envEmpty "secret-json"
      ⟨"cached-at", "cached-rt", 0⟩ rfl rfl rfl rfl rfl⟩

/-! ## C6 — publish failure skips the completion marker (source lines 108-114) -/

/-- C6: in every run where the publish call returns an error, `doMain`
fails with the post error and `markComplete` is never invoked. -/
theorem c6_post_error_skips_mark (sc : sheetsConfig) (tc : twitterConfig)
    (env : Env) (s : String) (tok : OToken) (grid : CellGrid)
    (h1 : env.secretContent = some s) (h2 : env.configOk = true)
    (h3 : (getClient env).outcome = .ok tok) (h4 : env.sheetsNewOk = true)
    (h5 : env.sheetResp = some grid) (h6 : grid ≠ [])
    (h7 : env.postOk = false) :
    (doMain sc tc env).outcome = .error .postErr ∧
      Event.markCompleteCall ∉ (doMain sc tc env).events := by
  simp [doMain, h1, h2, h3, h4, h5, h7, tweet, Nat.lt_one_iff,
    List.length_eq_zero, h6, markCompleteCall_not_in_getClient env]

/-- An otherwise-successful environment whose publish call fails. -/
def envPostFail : Env := { envOk with postOk := false }

/-- C6 witness: the publish-failure theorem at the concrete environment
`envPostFail`. -/
theorem c6_post_error_skips_mark_witness :
    envPostFail.postOk = false ∧
      envPostFail.sheetResp = some [["a", "b"], ["c", "d"]] ∧
      ((doMain scW tcW envPostFail).outcome = .error .postErr ∧
        Event.markCompleteCall ∉ (doMain scW tcW envPostFail).events) :=
  ⟨rfl, rfl,
    c6_post_error_skips_mark scW tcW envPostFail "secret-json"
      ⟨"cached-at", "cached-rt", 0⟩ [["a", "b"], ["c", "d"]]
      rfl rfl rfl rfl rfl (by decide) rfl⟩

/-! ## C7 — cache file untouched when the load succeeds (source lines 125-135) -/

/-- C7: in every run where the Token Store load succeeds, `saveToken` is
never called and the token-cache file contents are unchanged by the run. -/
theorem c7_no_cache_write_on_load_success (sc : sheetsConfig)
    (tc : twitterConfig) (env : Env) (f : String) (tok : OToken)
    (hp : env.cachePath = some f) (hl : env.loadedToken = some tok) :
    Event.saveCall ∉ (doMain sc tc env).events ∧
      (doMain sc tc env).cacheContents = env.cacheContents := by
  have hg := getClient_load_success env f tok hp hl
  cases hs : env.secretContent with
  | none => simp [doMain, hs]
  | some s =>
    cases hc : env.configOk with
    | false => simp [doMain, hs, hc]
    | true =>
      cases hn : env.sheetsNewOk with
      | false => simp [doMain, hs, hc, hg, hn]
      | true =>
        cases hr : env.sheetResp with
        | none => simp [doMain, hs, hc, hg, hn, hr]
        | some grid =>
          cases grid with
          | nil => simp [doMain, hs, hc, hg, hn, hr]
          | cons row rest =>
            cases hpo : env.postOk <;>
              simp [doMain, hs, hc, hg, hn, hr, hpo, tweet, markComplete]

/-- C7 witness: the no-cache-write theorem at the concrete environment
`envOk`, whose cache load succeeds. -/
theorem c7_no_cache_write_on_load_success_witness :
    envOk.cachePath = some "home/.credentials/sheets-to-tweets" ∧
      envOk.loadedToken = some ⟨"cached-at", "cached-rt", 0⟩ ∧
      (Event.saveCall ∉ (doMain scW tcW envOk).events ∧
        (doMain scW tcW envOk).cacheContents = envOk.cacheContents) :=
  ⟨rfl, rfl,
    c7_no_cache_write_on_load_success scW tcW envOk
      "home/.credentials/sheets-to-tweets" ⟨"cached-at", "cached-rt", 0⟩
      rfl rfl⟩

/-! ## C8 — missing secret file fails before anything else (source lines 74-77) -/

/-- C8: in every run where reading the client secret file fails, `doMain`
fails with the config-read error and the only external call made is that
file read — no token load, no web exchange, no sheet read, no publish. -/
theorem c8_missing_secret_file_fails_first (sc : sheetsConfig)
    (tc : twitterConfig) (env : Env) (h : env.secretContent = none) :
    (doMain sc tc env).outcome = .error .configRead ∧
      (doMain sc tc env).events = [Event.readSecretFile] ∧
      Event.tokenLoad ∉ (doMain sc tc env).events ∧
      Event.webExchange ∉ (doMain sc tc env).events ∧
      Event.sheetRead ∉ (doMain sc tc env).events ∧
      Event.postTweet ∉ (doMain sc tc env).events := by
  simp [doMain, h]

/-- An environment whose client secret file is missing. -/
def envNoSecret : Env := { envOk with secretContent := none }

/-- C8 witness: the missing-secret theorem at the concrete environment
`envNoSecret`. -/
theorem c8_missing_secret_file_fails_first_witness :
    envNoSecret.secretContent = none ∧
      ((doMain scW tcW envNoSecret).outcome = .error .configRead ∧
        (doMain scW tcW envNoSecret).events = [Event.readSecretFile] ∧
        Event.tokenLoad ∉ (doMain scW tcW envNoSecret).events ∧
        Event.webExchange ∉ (doMain scW tcW envNoSecret).events ∧
        Event.sheetRead ∉ (doMain scW tcW envNoSecret).events ∧
        Event.postTweet ∉ (doMain scW tcW envNoSecret).events) :=
  ⟨rfl, c8_missing_secret_file_fails_first scW tcW envNoSecret rfl⟩

end Hitlist
